import Mathlib

/-!
Verification of the HIL (hardware-in-the-loop) test orchestration pipeline
of this repository, shallowly embedded in Lean 4.

The embedding covers:
* `src/hil_tester/stm32_flasher.py` — `flash_firmware` (flash outcome
  classification, reset handling);
* `src/hil_tester/main_runner.py` — `main` (orchestration: stimulus,
  capture configuration, verification, process exit codes);
* `src/run_test.py` — `main` (the JSON test-bundle entry point's
  subordinate-process launch and exit-code propagation).

External effects (file existence, subprocess execution, serial reception,
JSON parsing) are modelled as explicit inputs: an environment record holds
the result each external call would produce, and the embedded functions
reproduce the Python control flow over those results.  Python exception
semantics that matter are modelled explicitly:

* `subprocess.run(..., check=True)` raises `CalledProcessError` whenever the
  launched process completes with a non-zero return code, so code after the
  call only ever sees `returncode == 0`;
* `sys.exit(n)` raises `SystemExit`, which is NOT a subclass of `Exception`
  and therefore is not caught by `except Exception` clauses;
* a `finally` block that itself calls `sys.exit(m)` replaces any exception
  (including an in-flight `SystemExit`) that was propagating through it, so
  the process terminates with code `m`.
-/

/-! ## Python string primitives

`pyLower` models `str.lower()` (ASCII case folding suffices for the string
literals used by the flasher).  `pyIn needle hay` models the Python
membership test `needle in hay` (substring containment). -/

/-- `leadMatch needle hay` is true when `needle` is an initial segment of
`hay` (helper for substring search). -/
def leadMatch : List Char → List Char → Bool
  | [], _ => true
  | _ :: _, [] => false
  | a :: as, b :: bs => a == b && leadMatch as bs

/-- `subMatch needle hay` is true when `needle` occurs contiguously inside
`hay`. -/
def subMatch : List Char → List Char → Bool
  | needle, [] => needle.isEmpty
  | needle, h :: t => leadMatch needle (h :: t) || subMatch needle t

/-- Python `needle in hay` on strings. -/
def pyIn (needle hay : String) : Bool :=
  subMatch needle.toList hay.toList

/-- Python `s.lower()` (character-wise case folding). -/
def pyLower (s : String) : String :=
  String.mk (s.toList.map Char.toLower)

/-! ## Model of external process execution

`ProcResult` is the outcome of one `subprocess.run(...)` call attempt:
the process ran to completion with a return code and captured output
streams, or the executable was not found (`FileNotFoundError`), or some
other exception was raised. -/

/-- Result of attempting `subprocess.run` on one command. -/
inductive ProcResult where
  /-- The process ran and completed with this return code, stdout, stderr. -/
  | completed (returncode : Int) (stdout stderr : String)
  /-- Launch raised `FileNotFoundError` (executable not found). -/
  | fileNotFound
  /-- Launch or execution raised some other exception. -/
  | otherError
deriving DecidableEq, Repr

/-! ## `stm32_flasher.flash_firmware`

Source: `src/hil_tester/stm32_flasher.py`, lines 7-76.

Environment: whether the firmware file exists (`os.path.exists`, line 18),
and the results the two `subprocess.run` calls would produce — the write
command (line 36) and the reset command (line 50).  Both calls pass
`check=True`, so a completed process with non-zero return code raises
`subprocess.CalledProcessError` at the call site. -/

/-- External-world inputs of one `flash_firmware` invocation. -/
structure FlashEnv where
  /-- `os.path.exists(firmware_path)` (line 18). -/
  firmwareExists : Bool
  /-- Result of the write command `subprocess.run` (line 36). -/
  writeRun : ProcResult
  /-- Result of the reset command `subprocess.run` (line 50), consulted only
  if the flash is classified a success. -/
  resetRun : ProcResult
deriving DecidableEq, Repr

/-- A subprocess launch attempted by `flash_firmware` (write or reset). -/
inductive Launch where
  | write
  | reset
deriving DecidableEq, Repr

/-- `flash_firmware` together with the trace of subprocess launches it
attempts, in order.  Faithful to `src/hil_tester/stm32_flasher.py`:

* line 18-20: missing firmware file returns `False` before any launch;
* line 36: `subprocess.run(command, check=True, ...)`; `check=True` means a
  completed process with `returncode ≠ 0` raises `CalledProcessError`,
  caught at lines 64-70, returning `False`; `FileNotFoundError` is caught at
  lines 71-73 and any other exception at lines 74-76, both returning `False`;
* lines 43-45: classification (reached only with `returncode == 0`): success
  when stderr contains (case-insensitively) "verify success" or
  "flash written and verified successfully", or when the return code is zero
  and stderr does not contain "error";
* lines 48-55: on classified success the reset command runs inside a `try`
  whose only handler is `except subprocess.CalledProcessError` (line 52):
  a completed reset with any return code yields `True` (line 55), but a
  reset launch raising `FileNotFoundError` or another exception escapes the
  inner `try` to the outer handlers (lines 71-76) and returns `False`;
* lines 56-62: the not-classified branch rechecks `returncode == 0` and no
  "error" substring, returning `True` then, else `False`. -/
def flashRunAux (e : FlashEnv) : Bool × List Launch :=
  if !e.firmwareExists then
    (false, [])
  else
    match e.writeRun with
    | .fileNotFound => (false, [.write])
    | .otherError => (false, [.write])
    | .completed rc _out err =>
      if rc ≠ 0 then
        (false, [.write])
      else
        if pyIn "verify success" (pyLower err)
            || pyIn "flash written and verified successfully" (pyLower err)
            || (rc == 0 && !pyIn "error" (pyLower err)) then
          match e.resetRun with
          | .completed _ _ _ => (true, [.write, .reset])
          | .fileNotFound => (false, [.write, .reset])
          | .otherError => (false, [.write, .reset])
        else
          if rc == 0 && !pyIn "error" (pyLower err) then
            (true, [.write])
          else
            (false, [.write])

/-- The boolean returned by `flash_firmware` (the `FlashOutcome`:
`true` = Success, `false` = Failure). -/
def flash_firmware (e : FlashEnv) : Bool :=
  (flashRunAux e).1

/-- The subprocess launches `flash_firmware` attempts, in order. -/
def flashLaunches (e : FlashEnv) : List Launch :=
  (flashRunAux e).2

/-! ## `main_runner.main`

Source: `src/hil_tester/main_runner.py`, lines 15-148.

The flash step (lines 50-63) runs before the `try`/`finally`; the
`sys.exit(1)` calls there terminate the process with code 1 directly.
Everything from the `with GPIOController(...)` block on (lines 69-136) sits
inside one `try` whose `finally` (lines 137-148) unconditionally calls
`sys.exit`.  Consequences modelled here:

* exceptions raised inside the `try` and matched by one of the `except`
  clauses (lines 125-136) leave `script_ran_to_completion = False`, so the
  `finally` exits with code 2;
* `sys.exit(1)` at lines 75 and 84 raises `SystemExit(1)`; `SystemExit`
  derives from `BaseException`, not `Exception`, so no `except` clause
  catches it — but while it propagates, the `finally` block runs and its own
  `sys.exit(2)` (line 148, since `script_ran_to_completion` is still
  `False`) replaces the in-flight `SystemExit(1)`: the process exits with
  code 2, not 1. -/

/-- Result of one external call: it raised an exception (of a type caught by
the `except` clauses of `main`), or returned a value. -/
inductive StepResult (α : Type) where
  | raised : StepResult α
  | ok : α → StepResult α
deriving DecidableEq, Repr

/-- Python truthiness of an optional string CLI argument:
`None` and the empty string are falsy (used at lines 87 and 104,
`if args.expected_values ...`). -/
def pyTruthy : Option String → Bool
  | none => false
  | some s => s ≠ ""

/-- The arguments of the one `ser_rcv.receive_data(...)` call
(lines 97-101). -/
structure CaptureCall where
  mode : String
  overall_timeout_s : Int
  idle_timeout_s : Int
deriving DecidableEq, Repr

/-- External-world inputs of one `main` invocation in
`src/hil_tester/main_runner.py`. -/
structure RunnerEnv where
  /-- `args.skip_flash` (line 50). -/
  skip_flash : Bool
  /-- `os.path.exists(args.code_to_test)` (line 52). -/
  code_exists : Bool
  /-- Result of the `flash_firmware(...)` call (line 56): `raised` if it
  threw, else the boolean it returned. -/
  flashRes : StepResult Bool
  /-- Entering `GPIOController(...)` (line 70): may raise `GPIOInitError`. -/
  gpioEnter : StepResult Unit
  /-- `emulate_hw_pins_from_file(...)` (line 72): raised, or the returned
  record — `none` models Python `None` (critical stimulus failure),
  `some ()` any non-`None` record. -/
  stimulus : StepResult (Option Unit)
  /-- Entering `SerialReceiver(...)` (line 81) and `is_connected()`
  (line 82): raised, or the connection status. -/
  serialEnter : StepResult Bool
  /-- `args.expected_values` (optional CLI argument). -/
  expected_values : Option String
  /-- `os.path.exists(args.expected_values)` at reception-mode resolution
  time (line 87). -/
  expected_exists_capture : Bool
  /-- Reading and JSON-parsing the expected-values file (lines 89-91):
  `raised` if `open`/`json.load` threw (the `except` at line 93 catches it
  locally), else `ok m` where `m` is the value of the `reception_mode`
  field (`none` when the field is absent, making `.get` return the
  default `"lines"`). -/
  parseModeRes : StepResult (Option String)
  /-- `args.receive_timeout` (an `int`, line 31). -/
  receive_timeout : Int
  /-- `ser_rcv.receive_data(...)` (line 97): raised, or the data returned
  (`none` models Python `None`: nothing received). -/
  receiveRes : StepResult (Option String)
  /-- `os.path.exists(args.expected_values)` at verification time
  (line 105); the file system may have changed since line 87. -/
  expected_exists_verify : Bool
  /-- `check_output(received_data, args.expected_values,
  input_actions_config)` (line 113): raised, or the boolean it returned. -/
  checkRes : StepResult Bool
deriving DecidableEq, Repr

/-- Outcome of the `try` body (lines 69-123). -/
inductive BodyResult where
  /-- The body ran to line 123 (`script_ran_to_completion = True`),
  having issued exactly one `receive_data` call with the given arguments;
  `check_invoked` records whether `check_output` was called, and
  `test_passed` the final value of the `test_passed` variable. -/
  | completed (call : CaptureCall) (check_invoked : Bool) (test_passed : Bool)
  /-- `sys.exit(code)` was reached inside the body (line 75 or 84). -/
  | earlyExit (code : Nat)
  /-- An exception was raised and matched an `except` clause
  (lines 125-136). -/
  | caught
deriving DecidableEq, Repr

/-- Reception-mode resolution (lines 86-94): starts as `"lines"`;
if the expected-values argument is truthy and the file exists, try to parse
it and take its `reception_mode` field with default `"lines"`; a read/parse
exception is caught at line 93 and leaves the default. -/
def resolveMode (e : RunnerEnv) : String :=
  if pyTruthy e.expected_values && e.expected_exists_capture then
    match e.parseModeRes with
    | .raised => "lines"
    | .ok m => m.getD "lines"
  else
    "lines"

/-- The `try` body of `main` (lines 69-123), step by step:

* line 70: enter `GPIOController` — an exception is caught (line 125);
* lines 72-75: stimulus; an exception is caught (line 127 or 133); a `None`
  record reaches `sys.exit(1)` (line 75);
* lines 81-84: enter `SerialReceiver`; not connected reaches `sys.exit(1)`
  (line 84);
* lines 86-101: resolve the reception mode, then call `receive_data` with
  `overall_timeout_s = args.receive_timeout` and
  `idle_timeout_s = max(1, args.receive_timeout // 2)` (Python `//` is
  floor division, `Int.fdiv`);
* lines 103-121: output checking, setting `test_passed`;
* line 123: `script_ran_to_completion = True`. -/
def runTryBody (e : RunnerEnv) : BodyResult :=
  match e.gpioEnter with
  | .raised => .caught
  | .ok _ =>
    match e.stimulus with
    | .raised => .caught
    | .ok none => .earlyExit 1
    | .ok (some _) =>
      match e.serialEnter with
      | .raised => .caught
      | .ok connected =>
        if !connected then
          .earlyExit 1
        else
          let call : CaptureCall :=
            ⟨resolveMode e, e.receive_timeout,
              max 1 (e.receive_timeout.fdiv 2)⟩
          match e.receiveRes with
          | .raised => .caught
          | .ok received =>
            if pyTruthy e.expected_values then
              if !e.expected_exists_verify then
                .completed call false true
              else
                match received with
                | none => .completed call false false
                | some _ =>
                  match e.checkRes with
                  | .raised => .caught
                  | .ok b => .completed call true b
            else
              .completed call false received.isSome

/-- The process exit code produced by the `try`/`except`/`finally` complex
(lines 69-148), given the body outcome:

* body completed: the `finally` exits 0 when `test_passed` else 1
  (lines 139-145);
* early `sys.exit(1)` inside the body: the propagating `SystemExit(1)` is
  not an `Exception`, no handler catches it, and the `finally` block's
  `sys.exit(2)` (line 148, `script_ran_to_completion` still `False`)
  replaces it — the process exits 2;
* caught exception: handlers only print; the `finally` exits 2 (line 148). -/
def exitOfBody : BodyResult → Nat
  | .completed _ _ tp => if tp then 0 else 1
  | .earlyExit _ => 2
  | .caught => 2

/-- The full `main` exit code.  The flash step (lines 50-63) runs before the
`try`/`finally`, so its `sys.exit(1)` calls terminate the process with
code 1 directly: firmware file missing (line 54), `flash_firmware`
returning `False` (line 58), or an exception during flashing (line 63). -/
def mainExitCode (e : RunnerEnv) : Nat :=
  if !e.skip_flash then
    if !e.code_exists then
      1
    else
      match e.flashRes with
      | .raised => 1
      | .ok false => 1
      | .ok true => exitOfBody (runTryBody e)
  else
    exitOfBody (runTryBody e)

/-! ## `run_test.main` subordinate launch

Source: `src/run_test.py`, lines 114-142.  After resolving paths, the entry
point launches `hil_tester.main_runner` as a subordinate process via
`subprocess.run(cmd, check=True, capture_output=True, ...)` (line 122) and:

* on completion with return code 0: prints the subordinate's stdout
  (line 124) and, when non-empty, its stderr (lines 125-127), then returns
  normally (process exit code 0);
* on `CalledProcessError` (non-zero return code, raised by `check=True`):
  prints the subordinate's stdout and stderr (lines 131-134) and calls
  `sys.exit(e.returncode)` (line 135) — the subordinate's exact code;
* on `FileNotFoundError`: exits 1 (line 139);
* on any other exception: exits 1 (line 142).

The returned pair is (process exit code, the subordinate output streams
printed, in print order). -/
def run_test_launch (r : ProcResult) : Int × List String :=
  match r with
  | .completed rc out err =>
    if rc ≠ 0 then
      (rc, [out, err])
    else
      (0, if err ≠ "" then [out, err] else [out])
  | .fileNotFound => (1, [])
  | .otherError => (1, [])

/-! ## Claims about the Flash Controller -/

/-- Claim C1, counterexample.  The claim states that whenever the tool's
standard error contains "verify success" (case-insensitively), the outcome
is Success regardless of the exit code.  False: the write command runs with
`check=True`, so a completed process with exit code 1 raises
`CalledProcessError` before the substring classifier is reached, and the
handler at lines 64-70 returns `False` — even though stderr is exactly
"verify success". -/
theorem claim_C1_counterexample :
    pyIn "verify success" (pyLower "verify success") = true ∧
    flash_firmware
      ⟨true, .completed 1 "" "verify success", .completed 0 "" ""⟩ = false :=
  ⟨rfl, rfl⟩

/-- Claim C1, amended: whenever the write tool completes with exit code 0
and its standard error contains "verify success" (case-insensitively), and
the reset launch does not itself raise an exception (it may exit with any
code), `flash_firmware` returns Success. -/
theorem claim_C1_amended (out err rout rerr : String) (rrc : Int)
    (h : pyIn "verify success" (pyLower err) = true) :
    flash_firmware
      ⟨true, .completed 0 out err, .completed rrc rout rerr⟩ = true := by
  simp [flash_firmware, flashRunAux, h]

/-- Claim C1, amended, at a concrete input: exit code 0, stderr
"Verify Success" in mixed case, reset exiting non-zero. -/
theorem claim_C1_amended_witness :
    flash_firmware
      ⟨true, .completed 0 "" "Verify Success", .completed 1 "" ""⟩ = true :=
  claim_C1_amended "" "Verify Success" "" "" 1 (by decide)

/-- Claim C2: when the write tool completes with a non-zero exit code and
neither success phrase occurs case-insensitively in its standard error,
`flash_firmware` returns Failure.  (With `check=True` the non-zero exit
raises `CalledProcessError`, caught at lines 64-70 with `return False`.) -/
theorem claim_C2_nonzero_exit_failure (e : FlashEnv) (rc : Int)
    (out err : String)
    (hw : e.writeRun = .completed rc out err) (hrc : rc ≠ 0)
    (h1 : pyIn "verify success" (pyLower err) = false)
    (h2 : pyIn "flash written and verified successfully" (pyLower err)
      = false) :
    flash_firmware e = false := by
  cases hfe : e.firmwareExists <;>
    simp [flash_firmware, flashRunAux, hw, hrc, hfe]

/-- Claim C2 at a concrete input: exit code 1, empty stderr. -/
theorem claim_C2_witness :
    flash_firmware ⟨true, .completed 1 "" "", .completed 0 "" ""⟩ = false :=
  claim_C2_nonzero_exit_failure _ 1 "" "" rfl (by decide) (by decide)
    (by decide)

/-- Claim C3: when the firmware artifact does not exist on disk,
`flash_firmware` returns Failure and attempts no subprocess launch at all
(neither the write command nor the reset command) — lines 18-20 return
before any `subprocess.run` call. -/
theorem claim_C3_missing_firmware (e : FlashEnv)
    (h : e.firmwareExists = false) :
    flash_firmware e = false ∧ flashLaunches e = [] := by
  simp [flash_firmware, flashLaunches, flashRunAux, h]

/-- Claim C3 at a concrete input. -/
theorem claim_C3_witness :
    flash_firmware ⟨false, .completed 0 "" "", .completed 0 "" ""⟩ = false ∧
    flashLaunches ⟨false, .completed 0 "" "", .completed 0 "" ""⟩ = [] :=
  claim_C3_missing_firmware _ rfl

/-- Claim C4, counterexample.  The claim states that once the flash write is
classified a success, the function returns Success even when the reset
command fails, whether it raises or exits non-zero.  False for a raising
reset: the inner `try` (lines 48-55) only handles
`subprocess.CalledProcessError`, so a reset launch that raises
`FileNotFoundError` escapes to the outer handler (lines 71-73), which
returns `False`.  The first conjunct shows the same write result is
classified a success (reset completing yields `True`); the second shows the
raising reset flips the returned outcome to `False`. -/
theorem claim_C4_counterexample :
    flash_firmware
      ⟨true, .completed 0 "" "verify success", .completed 0 "" ""⟩ = true ∧
    flash_firmware
      ⟨true, .completed 0 "" "verify success", .fileNotFound⟩ = false :=
  ⟨rfl, rfl⟩

/-- Claim C4, amended: once the write completes with exit code 0 and is
classified a success, a reset command that runs and exits with any code
(in particular non-zero, raising `CalledProcessError` under `check=True`,
caught at line 52) does not downgrade the outcome: `flash_firmware` still
returns Success.  Only a reset launch that raises outside
`CalledProcessError` (tool vanished, unexpected exception) turns the result
into Failure. -/
theorem claim_C4_amended (out err rout rerr : String) (rrc : Int)
    (hcls : (pyIn "verify success" (pyLower err)
        || pyIn "flash written and verified successfully" (pyLower err)
        || !pyIn "error" (pyLower err)) = true) :
    flash_firmware
      ⟨true, .completed 0 out err, .completed rrc rout rerr⟩ = true := by
  simp [flash_firmware, flashRunAux, hcls]

/-- Claim C4, amended, at a concrete input: classified success via
"verify success", reset exits with code 1. -/
theorem claim_C4_amended_witness :
    flash_firmware
      ⟨true, .completed 0 "" "verify success", .completed 1 "" ""⟩ = true :=
  claim_C4_amended "" "verify success" "" "" 1 (by decide)

/-! ## Claims about the Orchestrator (`main_runner.main`) -/

/-- Claim C5: when no (truthy) expected-values path is provided and the
`try` body runs to completion, the final `test_passed` equals the presence
of received data (lines 114-121): `True` exactly when `receive_data`
returned something non-`None`, whatever its content (an empty string
counts as present).  Python truthiness note: an `--expected-values`
argument that is the empty string is falsy at line 104 and takes this same
branch. -/
theorem claim_C5_no_spec_verdict (e : RunnerEnv) (r : Option String)
    (c : CaptureCall) (ci tp : Bool)
    (hp : pyTruthy e.expected_values = false)
    (hr : e.receiveRes = .ok r)
    (hb : runTryBody e = .completed c ci tp) :
    tp = r.isSome := by
  rcases hg : e.gpioEnter with _ | u
  · simp [runTryBody, hg] at hb
  · rcases hs : e.stimulus with _ | os
    · simp [runTryBody, hg, hs] at hb
    · rcases os with _ | u2
      · simp [runTryBody, hg, hs] at hb
      · rcases hse : e.serialEnter with _ | conn
        · simp [runTryBody, hg, hs, hse] at hb
        · cases conn
          · simp [runTryBody, hg, hs, hse] at hb
          · simp [runTryBody, hg, hs, hse, hr, hp] at hb
            exact hb.2.2.symm

/-- Claim C5 at a concrete input: no expected-values argument, body
completed with an empty capture (`none`), so `test_passed = false`. -/
theorem claim_C5_witness :
    runTryBody
        ⟨true, true, .ok true, .ok (), .ok (some ()), .ok true, none, false,
          .ok none, 10, .ok none, false, .ok true⟩ =
      .completed ⟨"lines", 10, 5⟩ false false ∧
    (false : Bool) = (Option.isSome (none : Option String)) :=
  ⟨by decide,
    claim_C5_no_spec_verdict
      ⟨true, true, .ok true, .ok (), .ok (some ()), .ok true, none, false,
        .ok none, 10, .ok none, false, .ok true⟩
      none ⟨"lines", 10, 5⟩ false false rfl rfl (by decide)⟩

/-- Helper: whenever the `try` body completes, the one `receive_data` call
it made carried the resolved reception mode, `overall_timeout_s =
args.receive_timeout` and `idle_timeout_s = max(1, args.receive_timeout
// 2)` (lines 97-101). -/
theorem runTryBody_call_shape (e : RunnerEnv) (c : CaptureCall)
    (ci tp : Bool) (hb : runTryBody e = .completed c ci tp) :
    c = ⟨resolveMode e, e.receive_timeout,
      max 1 (e.receive_timeout.fdiv 2)⟩ := by
  rcases hg : e.gpioEnter with _ | u
  · simp [runTryBody, hg] at hb
  · rcases hs : e.stimulus with _ | os
    · simp [runTryBody, hg, hs] at hb
    · rcases os with _ | u2
      · simp [runTryBody, hg, hs] at hb
      · rcases hse : e.serialEnter with _ | conn
        · simp [runTryBody, hg, hs, hse] at hb
        · cases conn
          · simp [runTryBody, hg, hs, hse] at hb
          · rcases hr : e.receiveRes with _ | r
            · simp [runTryBody, hg, hs, hse, hr] at hb
            · cases hpt : pyTruthy e.expected_values
              · simp [runTryBody, hg, hs, hse, hr, hpt] at hb
                exact hb.1.symm
              · cases hv : e.expected_exists_verify
                · simp [runTryBody, hg, hs, hse, hr, hpt, hv] at hb
                  exact hb.1.symm
                · rcases r with _ | s
                  · simp [runTryBody, hg, hs, hse, hr, hpt, hv] at hb
                    exact hb.1.symm
                  · rcases hk : e.checkRes with _ | b
                    · simp [runTryBody, hg, hs, hse, hr, hpt, hv, hk] at hb
                    · simp [runTryBody, hg, hs, hse, hr, hpt, hv, hk] at hb
                      exact hb.1.symm

/-- Claim C6: when a (truthy) expected-values path is provided but
`os.path.exists` is false for it at verification time, the `try` body sets
`test_passed = True` (lines 105-107) without calling `check_output`,
whatever was captured.  (Python truthiness note: "provided" is read as the
code reads it at line 104 — a present-but-empty string argument is falsy
and takes the no-spec branch instead.) -/
theorem claim_C6_missing_expected_passes (e : RunnerEnv) (c : CaptureCall)
    (ci tp : Bool)
    (hp : pyTruthy e.expected_values = true)
    (hv : e.expected_exists_verify = false)
    (hb : runTryBody e = .completed c ci tp) :
    tp = true ∧ ci = false := by
  rcases hg : e.gpioEnter with _ | u
  · simp [runTryBody, hg] at hb
  · rcases hs : e.stimulus with _ | os
    · simp [runTryBody, hg, hs] at hb
    · rcases os with _ | u2
      · simp [runTryBody, hg, hs] at hb
      · rcases hse : e.serialEnter with _ | conn
        · simp [runTryBody, hg, hs, hse] at hb
        · cases conn
          · simp [runTryBody, hg, hs, hse] at hb
          · rcases hr : e.receiveRes with _ | r
            · simp [runTryBody, hg, hs, hse, hr] at hb
            · simp [runTryBody, hg, hs, hse, hr, hp, hv] at hb
              exact ⟨hb.2.2, hb.2.1⟩

/-- Claim C6 at a concrete input: expected path provided, file gone at
verification time, data captured. -/
theorem claim_C6_witness :
    runTryBody
        ⟨true, true, .ok true, .ok (), .ok (some ()), .ok true,
          some "expected.json", true, .ok (some "lines"), 10,
          .ok (some "42"), false, .ok true⟩ =
      .completed ⟨"lines", 10, 5⟩ false true ∧
    ((true : Bool) = true ∧ (false : Bool) = false) :=
  ⟨by decide,
    claim_C6_missing_expected_passes
      ⟨true, true, .ok true, .ok (), .ok (some ()), .ok true,
        some "expected.json", true, .ok (some "lines"), 10,
        .ok (some "42"), false, .ok true⟩
      ⟨"lines", 10, 5⟩ false true (by decide) rfl (by decide)⟩

/-- Claim C7: whenever the `try` body completes, the `receive_data` call it
made used `idle_timeout_s = max(1, receive_timeout // 2)` and
`overall_timeout_s = receive_timeout` (lines 97-101), and for any
`receive_timeout ≥ 1` the derived idle timeout does not exceed the overall
timeout. -/
theorem claim_C7_idle_timeout (e : RunnerEnv) (c : CaptureCall)
    (ci tp : Bool) (hb : runTryBody e = .completed c ci tp) :
    c.idle_timeout_s = max 1 (e.receive_timeout.fdiv 2) ∧
    c.overall_timeout_s = e.receive_timeout ∧
    (1 ≤ e.receive_timeout → c.idle_timeout_s ≤ c.overall_timeout_s) := by
  have h := runTryBody_call_shape e c ci tp hb
  subst h
  refine ⟨rfl, rfl, fun ht => ?_⟩
  show max 1 (e.receive_timeout.fdiv 2) ≤ e.receive_timeout
  rw [Int.fdiv_eq_ediv _ (by norm_num : (0 : Int) ≤ 2)]
  omega

/-- Claim C7 at a concrete input: `receive_timeout = 10` yields an idle
timeout of 5 seconds, within the overall 10-second budget. -/
theorem claim_C7_witness :
    (CaptureCall.mk "lines" 10 5).idle_timeout_s
        = max 1 ((10 : Int).fdiv 2) ∧
    (CaptureCall.mk "lines" 10 5).overall_timeout_s = (10 : Int) ∧
    ((1 : Int) ≤ 10 →
      (CaptureCall.mk "lines" 10 5).idle_timeout_s
        ≤ (CaptureCall.mk "lines" 10 5).overall_timeout_s) :=
  claim_C7_idle_timeout
    ⟨true, true, .ok true, .ok (), .ok (some ()), .ok true, none, false,
      .ok none, 10, .ok none, false, .ok true⟩
    ⟨"lines", 10, 5⟩ false false (by decide)

/-- Claim C8: when the stimulus record comes back `None` (line 73) in a run
whose flash stage passed (or was skipped), the process terminates with exit
code 2 — not 1.  The `sys.exit(1)` at line 75 raises `SystemExit(1)`, which
no `except` clause catches (`SystemExit` is not an `Exception`); while it
propagates, the `finally` block (lines 137-148) runs with
`script_ran_to_completion` still `False` and its `sys.exit(2)` at line 148
replaces the in-flight exit — consistent with the terminal mapping
Passed → 0, Failed → 1, Incomplete/Aborted → 2 encoded in `exitOfBody`
together with lines 139-148. -/
theorem claim_C8_null_stimulus_exit2 (e : RunnerEnv)
    (hg : e.gpioEnter = .ok ())
    (hs : e.stimulus = .ok none)
    (hf : e.skip_flash = true
      ∨ (e.code_exists = true ∧ e.flashRes = .ok true)) :
    mainExitCode e = 2 := by
  have hbody : runTryBody e = .earlyExit 1 := by
    simp [runTryBody, hg, hs]
  rcases hf with h | ⟨hc, hfl⟩
  · simp [mainExitCode, h, hbody, exitOfBody]
  · cases hsf : e.skip_flash <;>
      simp [mainExitCode, hsf, hc, hfl, hbody, exitOfBody]

/-- Claim C8 at a concrete input: flash skipped, stimulus record `None`. -/
theorem claim_C8_witness :
    mainExitCode
      ⟨true, true, .ok true, .ok (), .ok none, .ok true, none, false,
        .ok none, 10, .ok none, false, .ok true⟩ = 2 :=
  claim_C8_null_stimulus_exit2
    ⟨true, true, .ok true, .ok (), .ok none, .ok true, none, false,
      .ok none, 10, .ok none, false, .ok true⟩
    rfl rfl (Or.inl rfl)

/-- Claim C9: when the expected-values file exists at capture time but
reading or JSON-parsing it raises (the `except` at lines 93-94 catches the
exception locally), the run is not aborted: the reception mode falls back
to "lines" and the body proceeds through the `receive_data` call to
completion. -/
theorem claim_C9_parse_failure_lines (e : RunnerEnv) (r : Option String)
    (cb : Bool)
    (hp : pyTruthy e.expected_values = true)
    (hx : e.expected_exists_capture = true)
    (hj : e.parseModeRes = .raised)
    (hg : e.gpioEnter = .ok ())
    (hs : e.stimulus = .ok (some ()))
    (hc : e.serialEnter = .ok true)
    (hr : e.receiveRes = .ok r)
    (hk : e.checkRes = .ok cb) :
    ∃ ci tp, runTryBody e =
      .completed ⟨"lines", e.receive_timeout,
        max 1 (e.receive_timeout.fdiv 2)⟩ ci tp := by
  have hm : resolveMode e = "lines" := by simp [resolveMode, hp, hx, hj]
  cases hv : e.expected_exists_verify
  · exact ⟨false, true, by simp [runTryBody, hg, hs, hc, hr, hp, hv, hm]⟩
  · rcases r with _ | sdata
    · exact ⟨false, false,
        by simp [runTryBody, hg, hs, hc, hr, hp, hv, hm]⟩
    · exact ⟨true, cb,
        by simp [runTryBody, hg, hs, hc, hr, hp, hv, hm, hk]⟩

/-- Claim C9 at a concrete input: expected file present but unparseable,
capture returns a line, run completes with mode "lines". -/
theorem claim_C9_witness :
    ∃ ci tp,
      runTryBody
          ⟨true, true, .ok true, .ok (), .ok (some ()), .ok true,
            some "expected.json", true, .raised, 10, .ok (some "42"),
            true, .ok true⟩ =
        .completed
          ⟨"lines",
            (RunnerEnv.mk true true (.ok true) (.ok ()) (.ok (some ()))
              (.ok true) (some "expected.json") true .raised 10
              (.ok (some "42")) true (.ok true)).receive_timeout,
            max 1 ((RunnerEnv.mk true true (.ok true) (.ok ())
              (.ok (some ())) (.ok true) (some "expected.json") true
              .raised 10 (.ok (some "42")) true
              (.ok true)).receive_timeout.fdiv 2)⟩ ci tp :=
  claim_C9_parse_failure_lines
    ⟨true, true, .ok true, .ok (), .ok (some ()), .ok true,
      some "expected.json", true, .raised, 10, .ok (some "42"), true,
      .ok true⟩
    (some "42") true (by decide) rfl rfl rfl rfl rfl rfl rfl

/-! ## Claim about the secondary entry point (`run_test.main`) -/

/-- Claim C10: when the subordinate test-runner process completes with a
non-zero return code, `check=True` raises `CalledProcessError`; the handler
(lines 129-135) prints the subordinate's stdout and stderr, in that order,
and calls `sys.exit(e.returncode)` — the entry point exits with exactly the
subordinate's code. -/
theorem claim_C10_exit_propagation (rc : Int) (out err : String)
    (h : rc ≠ 0) :
    run_test_launch (.completed rc out err) = (rc, [out, err]) := by
  simp [run_test_launch, h]

/-- Claim C10 at a concrete input: subordinate exits 2. -/
theorem claim_C10_witness :
    run_test_launch (.completed 2 "sub out" "sub err")
      = (2, ["sub out", "sub err"]) :=
  claim_C10_exit_propagation 2 "sub out" "sub err" (by decide)
